import Mathlib

/-!
Verification of the incremental update orchestrator of the NBA_AI repository
(`src/database_updater.py` and `src/on_load.py`): a shallow embedding of the
persisted game data model, the three stage work-set queries, the readiness
evaluation of `update_pre_game_data`, the batch flag writer, and the
orchestrator's stage sequencing, together with proofs of the specified
properties.
-/

/-- Game status enumeration: the queries compare the `status` column only with
the literals 'Not Started', 'In Progress' and 'Completed'. -/
inductive Status where
  | notStarted
  | inProgress
  | completed
deriving DecidableEq, Repr

/-- A row of the `Games` table, with the columns read or written by the two
modules.  `date_time_est` is modelled as a natural number with the timestamp
order; the two boolean flag columns store the SQL integers 0/1 as `false`/`true`. -/
structure Game where
  game_id : String
  season : String
  season_type : String
  home_team : String
  away_team : String
  date_time_est : Nat
  status : Status
  game_data_finalized : Bool
  pre_game_data_finalized : Bool
deriving DecidableEq, Repr

/-- A row of the `Predictions` table: only the two columns used in the
LEFT JOIN condition of `get_games_for_prediction_update` matter here. -/
structure PredictionRow where
  game_id : String
  predictor : String
deriving DecidableEq, Repr

/-- The persisted database state: the `Games` table and the `Predictions` table,
each as a list of rows. -/
structure DB where
  games : List Game
  predictions : List PredictionRow
deriving DecidableEq, Repr

/-- Embedding of the Python values returned by the prediction work-set
functions: `database_updater.py` returns a list of strings (`row[0]` for each
fetched row), while `on_load.py` returns the fetched rows themselves, each a
1-tuple of a string.  `pstr s` is the Python string `s`; `prow cells` is a
Python tuple of strings. -/
inductive PyCell where
  | pstr (s : String)
  | prow (cells : List String)
deriving DecidableEq, Repr

/-- Python `row[0]` on a fetched row: the first column of the tuple. -/
def rowFirst : PyCell → PyCell
  | PyCell.prow (c :: _) => PyCell.pstr c
  | v => v

/-- The `NOT EXISTS` subquery shared verbatim by both modules'
`get_games_with_incomplete_pre_game_data`: some game `g2` of the queried season
is scheduled strictly earlier than `g1`, shares a team with `g1` on either
side, and still has `game_data_finalized = 0`. -/
def has_unsettled_predecessor (db : DB) (season : String) (g1 : Game) : Prop :=
  ∃ g2 ∈ db.games, g2.season = season ∧ g2.date_time_est < g1.date_time_est ∧
    (g2.home_team = g1.home_team ∨ g2.away_team = g1.home_team ∨
     g2.home_team = g1.away_team ∨ g2.away_team = g1.away_team) ∧
    g2.game_data_finalized = false

instance (db : DB) (season : String) (g1 : Game) :
    Decidable (has_unsettled_predecessor db season g1) := by
  unfold has_unsettled_predecessor
  infer_instance

/-- The LEFT JOIN match condition of `get_games_for_prediction_update` in both
modules: a `Predictions` row for this game and this predictor exists. -/
def has_prediction_row (db : DB) (predictor : String) (g : Game) : Prop :=
  ∃ p ∈ db.predictions, p.game_id = g.game_id ∧ p.predictor = predictor

instance (db : DB) (predictor : String) (g : Game) :
    Decidable (has_prediction_row db predictor g) := by
  unfold has_prediction_row
  infer_instance

namespace DatabaseUpdater

/-- The extra filter of `database_updater.py`:
`season_type IN ('Regular Season', 'Post Season')`. -/
def season_type_in (g : Game) : Prop :=
  g.season_type = "Regular Season" ∨ g.season_type = "Post Season"

instance (g : Game) : Decidable (season_type_in g) := by
  unfold season_type_in
  infer_instance

/-- `database_updater.get_games_needing_game_state_update`: game_ids of games of
the season, with season_type filtering, whose status is Completed or In
Progress and whose `game_data_finalized` is false. -/
def get_games_needing_game_state_update (db : DB) (season : String) : List String :=
  (db.games.filter fun g => decide (g.season = season ∧ season_type_in g ∧
    (g.status = Status.completed ∨ g.status = Status.inProgress) ∧
    g.game_data_finalized = false)).map Game.game_id

/-- `database_updater.get_games_with_incomplete_pre_game_data`: the SQL UNION of
(i) games of the season with `pre_game_data_finalized = 0` and status Completed
or In Progress, and (ii) Not Started games of the season with
`pre_game_data_finalized = 0` and no unsettled predecessor; UNION removes
duplicate rows. -/
def get_games_with_incomplete_pre_game_data (db : DB) (season : String) : List String :=
  (((db.games.filter fun g => decide (g.season = season ∧ season_type_in g ∧
      g.pre_game_data_finalized = false ∧
      (g.status = Status.completed ∨ g.status = Status.inProgress))).map Game.game_id) ++
   ((db.games.filter fun g => decide (g.season = season ∧ season_type_in g ∧
      g.pre_game_data_finalized = false ∧ g.status = Status.notStarted ∧
      ¬ has_unsettled_predecessor db season g)).map Game.game_id)).dedup

/-- `database_updater.get_games_for_prediction_update`: game_ids of games of the
season, with season_type filtering, whose `pre_game_data_finalized` is 1 and
for which the LEFT JOIN finds no Predictions row for the given predictor
(`p.game_id IS NULL`); the module unwraps each fetched row to `row[0]`. -/
def get_games_for_prediction_update (db : DB) (season predictor : String) : List String :=
  (db.games.filter fun g => decide (g.season = season ∧ season_type_in g ∧
    g.pre_game_data_finalized = true ∧
    ¬ has_prediction_row db predictor g)).map Game.game_id

end DatabaseUpdater

namespace OnLoad

/-- `on_load.get_games_needing_game_state_update`: same as the
`database_updater.py` variant but without the season_type filter. -/
def get_games_needing_game_state_update (db : DB) (season : String) : List String :=
  (db.games.filter fun g => decide (g.season = season ∧
    (g.status = Status.completed ∨ g.status = Status.inProgress) ∧
    g.game_data_finalized = false)).map Game.game_id

/-- `on_load.get_games_with_incomplete_pre_game_data`: same UNION query as the
`database_updater.py` variant but without the season_type filter on the outer
selects (neither variant filters the subquery's `g2` by season_type). -/
def get_games_with_incomplete_pre_game_data (db : DB) (season : String) : List String :=
  (((db.games.filter fun g => decide (g.season = season ∧
      g.pre_game_data_finalized = false ∧
      (g.status = Status.completed ∨ g.status = Status.inProgress))).map Game.game_id) ++
   ((db.games.filter fun g => decide (g.season = season ∧
      g.pre_game_data_finalized = false ∧ g.status = Status.notStarted ∧
      ¬ has_unsettled_predecessor db season g)).map Game.game_id)).dedup

/-- `on_load.get_games_for_prediction_update`: same LEFT JOIN anti-join query as
the `database_updater.py` variant but without the season_type filter, and the
function returns the fetched rows themselves (`return result`) — each a
1-tuple `(game_id,)` — rather than the unwrapped game_ids. -/
def get_games_for_prediction_update (db : DB) (season predictor : String) : List PyCell :=
  (db.games.filter fun g => decide (g.season = season ∧
    g.pre_game_data_finalized = true ∧
    ¬ has_prediction_row db predictor g)).map fun g => PyCell.prow [g.game_id]

end OnLoad

/-- The per-game structure produced by the external `load_prior_states`
collaborator, restricted to the `missing_prior_states` fields that
`update_pre_game_data` reads. -/
structure PriorStates where
  missing_home : Bool
  missing_away : Bool
deriving DecidableEq, Repr

/-- The inline readiness computation of `update_pre_game_data` (identical in
both modules): `int(not missing home and not missing away)`. -/
def readiness_flag (s : PriorStates) : Nat :=
  if !s.missing_home && !s.missing_away then 1 else 0

/-- The `games_update_data` list built by `update_pre_game_data`: one
`(pre_game_data_finalized, game_id)` pair per entry of the loaded prior-states
mapping, in mapping order. -/
def games_update_data (prior_states_dict : List (String × PriorStates)) :
    List (Nat × String) :=
  prior_states_dict.map fun e => (readiness_flag e.2, e.1)

/-- One SQL `UPDATE Games SET pre_game_data_finalized = ? WHERE game_id = ?`
applied to one row: rows whose `game_id` matches get the flag value (the
integers written are 0/1, stored as `false`/`true`); all other columns and all
other rows are untouched. -/
def applyFlagRow (g : Game) (u : Nat × String) : Game :=
  if g.game_id = u.2 then { g with pre_game_data_finalized := decide (u.1 = 1) } else g

/-- One parameterized UPDATE statement applied to the whole `Games` table. -/
def applyFlagUpdate (games : List Game) (u : Nat × String) : List Game :=
  games.map (applyFlagRow · u)

/-- `cursor.executemany` over the update pairs: the UPDATE statement executed
once per pair, left to right. -/
def executeFlagUpdates (games : List Game) (upds : List (Nat × String)) : List Game :=
  upds.foldl applyFlagUpdate games

/-- The cumulative effect of all the updates on a single row (the statements
act row-wise, so `executeFlagUpdates` is the row-wise fold mapped over the
table). -/
def applyFlagAll (upds : List (Nat × String)) (g : Game) : Game :=
  upds.foldl applyFlagRow g

/-- The database write of `update_pre_game_data` (identical in both modules),
with the external collaborators opaque: the loaded prior-states mapping is a
parameter, the readiness flags are computed by `readiness_flag`, and the pairs
are applied by `executemany` in one transaction (success path). -/
def update_pre_game_data (db : DB) (prior_states_dict : List (String × PriorStates)) : DB :=
  { db with games := executeFlagUpdates db.games (games_update_data prior_states_dict) }

/-- Modelled from the spec: the SQLite transaction discipline of the Update
Transaction Writer, which is library behaviour outside this repository.  A
transaction keeps the committed table and an uncommitted pending table; each
UPDATE rewrites only the pending table; `commit` publishes the pending table,
and an exception inside the `with sqlite3.connect(...)` block rolls back to
the committed table. -/
structure TxnState where
  committed : List Game
  pending : List Game
deriving DecidableEq, Repr

/-- One UPDATE executed inside the open transaction. -/
def txnUpdate (st : TxnState) (u : Nat × String) : TxnState :=
  { st with pending := applyFlagUpdate st.pending u }

/-- Modelled from the spec: one run of the Update Transaction Writer
(`update_pre_game_data`'s `with sqlite3.connect` block) with fault injection.
`faultAt = some k` with `k` less than the batch length means the `k`-th UPDATE
raises: the transaction rolls back and the committed table is returned
unchanged.  Otherwise all updates execute and `conn.commit()` publishes them. -/
def writerRun (games : List Game) (upds : List (Nat × String))
    (faultAt : Option Nat) : List Game :=
  match faultAt with
  | none => (upds.foldl txnUpdate ⟨games, games⟩).pending
  | some k =>
    if k < upds.length then ((upds.take k).foldl txnUpdate ⟨games, games⟩).committed
    else (upds.foldl txnUpdate ⟨games, games⟩).pending

/-- The four pipeline stages of `update_database`; the delegated stage bodies
are opaque, so a run is modelled by the sequence of stages it executes. -/
inductive Stage where
  | scheduleSync
  | gameData
  | preGameData
  | prediction
deriving DecidableEq, Repr

/-- Python truthiness of the `predictor` argument: `None` and the empty string
are falsy, every other string is truthy. -/
def pyTruthy : Option String → Bool
  | none => false
  | some s => !(s == "")

/-- The stage sequence executed by one call of `update_database` (identical
control flow in both modules): schedule sync, then game data, then pre-game
data, then — only `if predictor:` — the prediction stage. -/
def update_database_stages (predictor : Option String) : List Stage :=
  Stage.scheduleSync :: Stage.gameData :: Stage.preGameData ::
    (if pyTruthy predictor then [Stage.prediction] else [])

/-- The second row agrees with the first on every column except possibly
`pre_game_data_finalized`. -/
def agreesExceptPreGameFlag (g g' : Game) : Prop :=
  g'.game_id = g.game_id ∧ g'.season = g.season ∧ g'.season_type = g.season_type ∧
  g'.home_team = g.home_team ∧ g'.away_team = g.away_team ∧
  g'.date_time_est = g.date_time_est ∧ g'.status = g.status ∧
  g'.game_data_finalized = g.game_data_finalized

/-- A concrete Completed, not yet finalized game used by the witnesses. -/
def wG1 : Game :=
  { game_id := "g1", season := "2023-2024", season_type := "Regular Season",
    home_team := "BOS", away_team := "NYK", date_time_est := 10,
    status := Status.completed, game_data_finalized := false,
    pre_game_data_finalized := false }

/-- A concrete one-game database used by the witnesses. -/
def wDB1 : DB := { games := [wG1], predictions := [] }

/-- `wG1` after its readiness flag has been set. -/
def wG1Post : Game := { wG1 with pre_game_data_finalized := true }

/-- A concrete Not Started game whose only same-team predecessor is settled. -/
def wG2 : Game :=
  { game_id := "g2", season := "2023-2024", season_type := "Regular Season",
    home_team := "BOS", away_team := "LAL", date_time_est := 20,
    status := Status.notStarted, game_data_finalized := false,
    pre_game_data_finalized := false }

/-- A concrete database where `wG2`'s predecessor `g0` (shared team BOS,
earlier timestamp) already has `game_data_finalized = 1`. -/
def wDB2 : DB :=
  { games :=
      [{ game_id := "g0", season := "2023-2024", season_type := "Regular Season",
         home_team := "BOS", away_team := "NYK", date_time_est := 5,
         status := Status.completed, game_data_finalized := true,
         pre_game_data_finalized := true }, wG2],
    predictions := [] }

/-- A concrete game ready for prediction. -/
def wG3 : Game :=
  { game_id := "g3", season := "2023-2024", season_type := "Post Season",
    home_team := "BOS", away_team := "DEN", date_time_est := 30,
    status := Status.notStarted, game_data_finalized := false,
    pre_game_data_finalized := true }

/-- A concrete database with `wG3` and a prediction row for another predictor. -/
def wDB3 : DB :=
  { games := [wG3],
    predictions := [{ game_id := "g3", predictor := "Other" }] }

/-- A concrete game whose readiness flag is already 1. -/
def wG4 : Game :=
  { game_id := "g4", season := "2023-2024", season_type := "Regular Season",
    home_team := "MIA", away_team := "CHI", date_time_est := 1,
    status := Status.completed, game_data_finalized := true,
    pre_game_data_finalized := true }

/-- A concrete database holding a finalized game and a work-set game. -/
def wDB4 : DB := { games := [wG1, wG4], predictions := [] }

/-- With unique `game_id`s, a given row's id is selected by a
filter-and-project query exactly when the row itself passes the filter. -/
theorem mem_sel_iff {games : List Game} (hnodup : (games.map Game.game_id).Nodup)
    {G : Game} (hG : G ∈ games) (p : Game → Bool) :
    G.game_id ∈ (games.filter p).map Game.game_id ↔ p G = true := by
  constructor
  · intro h
    rw [List.mem_map] at h
    obtain ⟨H, hH, hid⟩ := h
    rw [List.mem_filter] at hH
    have hHG : H = G := List.inj_on_of_nodup_map hnodup hH.1 hG hid
    exact hHG ▸ hH.2
  · intro hp
    exact List.mem_map.mpr ⟨G, List.mem_filter.mpr ⟨hG, hp⟩, rfl⟩

/-- C3: the game-data work set of either module contains exactly the
identifiers of games of the queried season whose status is Completed or In
Progress and whose `game_data_finalized` is false; every Not Started game is
excluded. -/
theorem game_data_work_set_exact (db : DB) (season : String) (G : Game)
    (hnodup : (db.games.map Game.game_id).Nodup) (hG : G ∈ db.games)
    (hst : G.season_type = "Regular Season" ∨ G.season_type = "Post Season") :
    (G.game_id ∈ DatabaseUpdater.get_games_needing_game_state_update db season ↔
      (G.season = season ∧ (G.status = Status.completed ∨ G.status = Status.inProgress) ∧
       G.game_data_finalized = false)) ∧
    (G.game_id ∈ OnLoad.get_games_needing_game_state_update db season ↔
      (G.season = season ∧ (G.status = Status.completed ∨ G.status = Status.inProgress) ∧
       G.game_data_finalized = false)) ∧
    (G.status = Status.notStarted →
      G.game_id ∉ DatabaseUpdater.get_games_needing_game_state_update db season ∧
      G.game_id ∉ OnLoad.get_games_needing_game_state_update db season) := by
  have hdb : G.game_id ∈ DatabaseUpdater.get_games_needing_game_state_update db season ↔
      (G.season = season ∧ (G.status = Status.completed ∨ G.status = Status.inProgress) ∧
       G.game_data_finalized = false) := by
    rw [DatabaseUpdater.get_games_needing_game_state_update, mem_sel_iff hnodup hG]
    simp only [decide_eq_true_eq, DatabaseUpdater.season_type_in]
    tauto
  have hol : G.game_id ∈ OnLoad.get_games_needing_game_state_update db season ↔
      (G.season = season ∧ (G.status = Status.completed ∨ G.status = Status.inProgress) ∧
       G.game_data_finalized = false) := by
    rw [OnLoad.get_games_needing_game_state_update, mem_sel_iff hnodup hG]
    simp only [decide_eq_true_eq]
  refine ⟨hdb, hol, fun hns => ⟨fun hmem => ?_, fun hmem => ?_⟩⟩
  · rcases (hdb.mp hmem).2.1 with h | h <;> rw [hns] at h <;> exact Status.noConfusion h
  · rcases (hol.mp hmem).2.1 with h | h <;> rw [hns] at h <;> exact Status.noConfusion h

/-- Witness for C3 at a concrete database. -/
theorem game_data_work_set_exact_witness :
    (wDB1.games.map Game.game_id).Nodup ∧
    (wG1.game_id ∈ DatabaseUpdater.get_games_needing_game_state_update wDB1 "2023-2024" ↔
      (wG1.season = "2023-2024" ∧
       (wG1.status = Status.completed ∨ wG1.status = Status.inProgress) ∧
       wG1.game_data_finalized = false)) :=
  ⟨by decide,
   (game_data_work_set_exact wDB1 "2023-2024" wG1 (by decide) (by decide) (by decide)).1⟩

/-- C1: a Not Started game of the queried season with
`pre_game_data_finalized = 0` is in the pre-game-data work set of either module
exactly when no same-season game scheduled strictly earlier and sharing either
of its teams still has `game_data_finalized = 0`. -/
theorem pre_game_work_set_not_started_iff (db : DB) (season : String) (G : Game)
    (hnodup : (db.games.map Game.game_id).Nodup) (hG : G ∈ db.games)
    (hseason : G.season = season) (hstatus : G.status = Status.notStarted)
    (hpre : G.pre_game_data_finalized = false)
    (hst : G.season_type = "Regular Season" ∨ G.season_type = "Post Season") :
    (G.game_id ∈ DatabaseUpdater.get_games_with_incomplete_pre_game_data db season ↔
      ¬ has_unsettled_predecessor db season G) ∧
    (G.game_id ∈ OnLoad.get_games_with_incomplete_pre_game_data db season ↔
      ¬ has_unsettled_predecessor db season G) := by
  constructor
  · rw [DatabaseUpdater.get_games_with_incomplete_pre_game_data, List.mem_dedup,
      List.mem_append, mem_sel_iff hnodup hG, mem_sel_iff hnodup hG]
    simp only [decide_eq_true_eq]
    constructor
    · rintro (⟨-, -, -, hc | hc⟩ | ⟨-, -, -, -, hnb⟩)
      · rw [hstatus] at hc; exact Status.noConfusion hc
      · rw [hstatus] at hc; exact Status.noConfusion hc
      · exact hnb
    · intro hnb
      exact Or.inr ⟨hseason, hst, hpre, hstatus, hnb⟩
  · rw [OnLoad.get_games_with_incomplete_pre_game_data, List.mem_dedup,
      List.mem_append, mem_sel_iff hnodup hG, mem_sel_iff hnodup hG]
    simp only [decide_eq_true_eq]
    constructor
    · rintro (⟨-, -, hc | hc⟩ | ⟨-, -, -, hnb⟩)
      · rw [hstatus] at hc; exact Status.noConfusion hc
      · rw [hstatus] at hc; exact Status.noConfusion hc
      · exact hnb
    · intro hnb
      exact Or.inr ⟨hseason, hpre, hstatus, hnb⟩

/-- Witness for C1 at a concrete database. -/
theorem pre_game_work_set_not_started_iff_witness :
    (wDB2.games.map Game.game_id).Nodup ∧
    (wG2.game_id ∈ DatabaseUpdater.get_games_with_incomplete_pre_game_data wDB2 "2023-2024" ↔
      ¬ has_unsettled_predecessor wDB2 "2023-2024" wG2) :=
  ⟨by decide,
   (pre_game_work_set_not_started_iff wDB2 "2023-2024" wG2 (by decide) (by decide)
      (by decide) (by decide) (by decide) (by decide)).1⟩

/-- With unique `game_id`s, a given row's fetched 1-tuple is produced by a
filter-and-project query exactly when the row itself passes the filter. -/
theorem mem_sel_row_iff {games : List Game} (hnodup : (games.map Game.game_id).Nodup)
    {G : Game} (hG : G ∈ games) (p : Game → Bool) :
    PyCell.prow [G.game_id] ∈
      (games.filter p).map (fun g => PyCell.prow [g.game_id]) ↔ p G = true := by
  constructor
  · intro h
    rw [List.mem_map] at h
    obtain ⟨H, hH, hid⟩ := h
    simp only [PyCell.prow.injEq, List.cons.injEq, and_true] at hid
    rw [List.mem_filter] at hH
    have hHG : H = G := List.inj_on_of_nodup_map hnodup hH.1 hG hid
    exact hHG ▸ hH.2
  · intro hp
    exact List.mem_map.mpr ⟨G, List.mem_filter.mpr ⟨hG, hp⟩, rfl⟩

/-- C4: a game of the queried season is in the prediction work set of either
module exactly when its `pre_game_data_finalized` flag is 1 and the prediction
store holds no row for the pair (its game_id, the given predictor);
`database_updater.py` reports the game as its bare id, `on_load.py` as the
fetched 1-tuple row. -/
theorem prediction_work_set_iff (db : DB) (season predictor : String) (G : Game)
    (hnodup : (db.games.map Game.game_id).Nodup) (hG : G ∈ db.games)
    (hseason : G.season = season)
    (hst : G.season_type = "Regular Season" ∨ G.season_type = "Post Season") :
    (G.game_id ∈ DatabaseUpdater.get_games_for_prediction_update db season predictor ↔
      (G.pre_game_data_finalized = true ∧ ¬ has_prediction_row db predictor G)) ∧
    (PyCell.prow [G.game_id] ∈ OnLoad.get_games_for_prediction_update db season predictor ↔
      (G.pre_game_data_finalized = true ∧ ¬ has_prediction_row db predictor G)) := by
  constructor
  · rw [DatabaseUpdater.get_games_for_prediction_update, mem_sel_iff hnodup hG]
    simp only [decide_eq_true_eq]
    constructor
    · rintro ⟨-, -, hfin, hnp⟩
      exact ⟨hfin, hnp⟩
    · rintro ⟨hfin, hnp⟩
      exact ⟨hseason, hst, hfin, hnp⟩
  · rw [OnLoad.get_games_for_prediction_update, mem_sel_row_iff hnodup hG]
    simp only [decide_eq_true_eq]
    constructor
    · rintro ⟨-, hfin, hnp⟩
      exact ⟨hfin, hnp⟩
    · rintro ⟨hfin, hnp⟩
      exact ⟨hseason, hfin, hnp⟩

/-- Witness for C4 at a concrete database and predictor. -/
theorem prediction_work_set_iff_witness :
    (wDB3.games.map Game.game_id).Nodup ∧
    (wG3.game_id ∈ DatabaseUpdater.get_games_for_prediction_update wDB3 "2023-2024" "Random" ↔
      (wG3.pre_game_data_finalized = true ∧ ¬ has_prediction_row wDB3 "Random" wG3)) :=
  ⟨by decide,
   (prediction_work_set_iff wDB3 "2023-2024" "Random" wG3 (by decide) (by decide)
      (by decide) (by decide)).1⟩

/-- C2: for every entry of the loaded prior-states mapping,
`update_pre_game_data` emits the pair `(readiness_flag, game_id)` into
`games_update_data`, and the flag is 1 exactly when both `missing_prior_states`
sides are false, and 0 in the other three boolean combinations. -/
theorem readiness_flag_correct (dict : List (String × PriorStates))
    (gid : String) (ps : PriorStates) (h : (gid, ps) ∈ dict) :
    (readiness_flag ps, gid) ∈ games_update_data dict ∧
    (readiness_flag ps = 1 ↔ (ps.missing_home = false ∧ ps.missing_away = false)) ∧
    ((ps.missing_home = true ∨ ps.missing_away = true) → readiness_flag ps = 0) := by
  refine ⟨List.mem_map.mpr ⟨(gid, ps), h, rfl⟩, ?_, ?_⟩ <;>
    obtain ⟨mh, ma⟩ := ps <;> cases mh <;> cases ma <;> simp [readiness_flag]

/-- Witness for C2 at a concrete mapping. -/
theorem readiness_flag_correct_witness :
    (("g1", PriorStates.mk false false) ∈ [("g1", PriorStates.mk false false)]) ∧
    ((readiness_flag (PriorStates.mk false false), "g1") ∈
        games_update_data [("g1", PriorStates.mk false false)] ∧
      (readiness_flag (PriorStates.mk false false) = 1 ↔
        ((PriorStates.mk false false).missing_home = false ∧
         (PriorStates.mk false false).missing_away = false)) ∧
      (((PriorStates.mk false false).missing_home = true ∨
        (PriorStates.mk false false).missing_away = true) →
        readiness_flag (PriorStates.mk false false) = 0)) :=
  ⟨by decide,
   readiness_flag_correct [("g1", PriorStates.mk false false)] "g1"
     (PriorStates.mk false false) (by decide)⟩

/-- The UPDATE statements act row-wise, so `executemany` is the row-wise fold
mapped over the table. -/
theorem executeFlagUpdates_eq_map (upds : List (Nat × String)) (games : List Game) :
    executeFlagUpdates games upds = games.map (applyFlagAll upds) := by
  induction upds generalizing games with
  | nil =>
    show games = games.map (applyFlagAll [])
    have h : games.map (applyFlagAll []) = games.map id := rfl
    rw [h, List.map_id]
  | cons u us ih =>
    rw [executeFlagUpdates, List.foldl_cons, ← executeFlagUpdates,
      ih (applyFlagUpdate games u), applyFlagUpdate, List.map_map]
    congr 1

/-- A flag UPDATE never changes a row's `game_id`. -/
theorem applyFlagRow_game_id (g : Game) (u : Nat × String) :
    (applyFlagRow g u).game_id = g.game_id := by
  unfold applyFlagRow
  split <;> rfl

/-- A batch of flag UPDATEs never changes a row's `game_id`. -/
theorem applyFlagAll_game_id (upds : List (Nat × String)) (g : Game) :
    (applyFlagAll upds g).game_id = g.game_id := by
  induction upds generalizing g with
  | nil => rfl
  | cons u us ih =>
    rw [applyFlagAll, List.foldl_cons, ← applyFlagAll, ih, applyFlagRow_game_id]

/-- A row whose `game_id` matches none of the update pairs is left unchanged. -/
theorem applyFlagAll_untouched (upds : List (Nat × String)) (g : Game)
    (h : ∀ u ∈ upds, u.2 ≠ g.game_id) : applyFlagAll upds g = g := by
  induction upds with
  | nil => rfl
  | cons u us ih =>
    rw [applyFlagAll, List.foldl_cons, ← applyFlagAll]
    have hrow : applyFlagRow g u = g := by
      unfold applyFlagRow
      rw [if_neg fun hc => h u (List.mem_cons_self u us) hc.symm]
    rw [hrow]
    exact ih fun v hv => h v (List.mem_cons_of_mem _ hv)

theorem agreesExceptPreGameFlag_trans {a b c : Game}
    (h1 : agreesExceptPreGameFlag a b) (h2 : agreesExceptPreGameFlag b c) :
    agreesExceptPreGameFlag a c := by
  obtain ⟨a1, a2, a3, a4, a5, a6, a7, a8⟩ := h1
  obtain ⟨b1, b2, b3, b4, b5, b6, b7, b8⟩ := h2
  exact ⟨b1.trans a1, b2.trans a2, b3.trans a3, b4.trans a4, b5.trans a5,
    b6.trans a6, b7.trans a7, b8.trans a8⟩

/-- One flag UPDATE touches at most the `pre_game_data_finalized` column. -/
theorem applyFlagRow_agrees (g : Game) (u : Nat × String) :
    agreesExceptPreGameFlag g (applyFlagRow g u) := by
  unfold applyFlagRow agreesExceptPreGameFlag
  split <;> simp

/-- A batch of flag UPDATEs touches at most the `pre_game_data_finalized`
column of each row. -/
theorem applyFlagAll_agrees (upds : List (Nat × String)) (g : Game) :
    agreesExceptPreGameFlag g (applyFlagAll upds g) := by
  induction upds generalizing g with
  | nil => exact ⟨rfl, rfl, rfl, rfl, rfl, rfl, rfl, rfl⟩
  | cons u us ih =>
    rw [applyFlagAll, List.foldl_cons, ← applyFlagAll]
    exact agreesExceptPreGameFlag_trans (applyFlagRow_agrees g u) (ih (applyFlagRow g u))

/-- If a row's flag is true after a batch of flag UPDATEs, either it was
already true, or some update pair targeted this row with flag value 1. -/
theorem applyFlagAll_flag_provenance (upds : List (Nat × String)) (g : Game)
    (h : (applyFlagAll upds g).pre_game_data_finalized = true) :
    g.pre_game_data_finalized = true ∨ ∃ u ∈ upds, u.2 = g.game_id ∧ u.1 = 1 := by
  induction upds generalizing g with
  | nil => exact Or.inl h
  | cons u us ih =>
    rw [applyFlagAll, List.foldl_cons, ← applyFlagAll] at h
    rcases ih (applyFlagRow g u) h with h0 | ⟨v, hv, hvid, hv1⟩
    · unfold applyFlagRow at h0
      by_cases hcond : g.game_id = u.2
      · rw [if_pos hcond] at h0
        exact Or.inr ⟨u, List.mem_cons_self u us, hcond.symm, of_decide_eq_true h0⟩
      · rw [if_neg hcond] at h0
        exact Or.inl h0
    · rw [applyFlagRow_game_id] at hvid
      exact Or.inr ⟨v, List.mem_cons_of_mem _ hv, hvid, hv1⟩

/-- C10: a run of `update_pre_game_data` leaves the Predictions table
unchanged, and row for row leaves every column of the Games table unchanged
except possibly `pre_game_data_finalized`; a row whose `game_id` is not a key
of the loaded prior-states mapping is left entirely unchanged. -/
theorem update_pre_game_data_frame (db : DB) (dict : List (String × PriorStates)) :
    (update_pre_game_data db dict).predictions = db.predictions ∧
    List.Forall₂ (fun g g' => agreesExceptPreGameFlag g g' ∧
        (g.game_id ∉ dict.map Prod.fst → g' = g))
      db.games (update_pre_game_data db dict).games := by
  refine ⟨rfl, ?_⟩
  show List.Forall₂ _ db.games (executeFlagUpdates db.games (games_update_data dict))
  rw [executeFlagUpdates_eq_map, List.forall₂_map_right_iff, List.forall₂_same]
  intro g _
  refine ⟨applyFlagAll_agrees _ g, fun hnot => ?_⟩
  apply applyFlagAll_untouched
  intro u hu hc
  rw [games_update_data, List.mem_map] at hu
  obtain ⟨e, he, heq⟩ := hu
  apply hnot
  rw [List.mem_map]
  refine ⟨e, he, ?_⟩
  rw [← heq] at hc
  exact hc

/-- C5 (Invariant I1): after a run of `update_pre_game_data`, every row whose
`pre_game_data_finalized` flag is 1 either already carried flag 1 before the
run, or its `game_id` is in the loaded prior-states mapping with both
`missing_prior_states` sides false — the Readiness Evaluator is the only path
to a 1 value. -/
theorem pre_game_flag_one_provenance (db : DB) (dict : List (String × PriorStates))
    (g' : Game) (hg' : g' ∈ (update_pre_game_data db dict).games)
    (hpre : g'.pre_game_data_finalized = true) :
    (∃ g ∈ db.games, g.game_id = g'.game_id ∧ g.pre_game_data_finalized = true) ∨
    (∃ ps, (g'.game_id, ps) ∈ dict ∧ ps.missing_home = false ∧
      ps.missing_away = false) := by
  have hg'' : g' ∈ executeFlagUpdates db.games (games_update_data dict) := hg'
  rw [executeFlagUpdates_eq_map, List.mem_map] at hg''
  obtain ⟨g0, hg0, hmap⟩ := hg''
  rcases applyFlagAll_flag_provenance _ _ (hmap ▸ hpre) with h0 | ⟨u, hu, huid, hu1⟩
  · left
    refine ⟨g0, hg0, ?_, h0⟩
    rw [← hmap, applyFlagAll_game_id]
  · right
    rw [games_update_data, List.mem_map] at hu
    obtain ⟨e, he, heq⟩ := hu
    have hflag : readiness_flag e.2 = 1 := by
      rw [← heq] at hu1
      exact hu1
    have hid : e.1 = g'.game_id := by
      rw [← hmap, applyFlagAll_game_id, ← huid, ← heq]
    have hboth : e.2.missing_home = false ∧ e.2.missing_away = false := by
      cases hmh : e.2.missing_home <;> cases hma : e.2.missing_away <;>
        simp [readiness_flag, hmh, hma] at hflag ⊢
    refine ⟨e.2, ?_, hboth.1, hboth.2⟩
    rw [← hid]
    exact he

/-- C6 (Invariant I2): if the loaded prior-states mapping draws its keys from
the pre-game-data work set — which selects only games with
`pre_game_data_finalized = 0` — then a run of `update_pre_game_data` never
flips a game whose flag is already 1 back to 0. -/
theorem pre_game_flag_monotone_in_run (db : DB) (season : String)
    (dict : List (String × PriorStates))
    (hnodup : (db.games.map Game.game_id).Nodup)
    (hkeys : ∀ gid ps, (gid, ps) ∈ dict →
      gid ∈ DatabaseUpdater.get_games_with_incomplete_pre_game_data db season)
    (G : Game) (hG : G ∈ db.games) (hpre : G.pre_game_data_finalized = true)
    (g' : Game) (hg' : g' ∈ (update_pre_game_data db dict).games)
    (hid : g'.game_id = G.game_id) :
    g'.pre_game_data_finalized = true := by
  have huntouched : ∀ u ∈ games_update_data dict, u.2 ≠ G.game_id := by
    intro u hu hc
    rw [games_update_data, List.mem_map] at hu
    obtain ⟨e, he, heq⟩ := hu
    have hmem : e.1 ∈ DatabaseUpdater.get_games_with_incomplete_pre_game_data db season :=
      hkeys e.1 e.2 (by rw [Prod.mk.eta]; exact he)
    have hu2 : e.1 = G.game_id := by rw [← heq] at hc; exact hc
    rw [DatabaseUpdater.get_games_with_incomplete_pre_game_data, List.mem_dedup,
      List.mem_append] at hmem
    rcases hmem with hmem | hmem <;>
    · rw [List.mem_map] at hmem
      obtain ⟨H, hH, hHid⟩ := hmem
      rw [List.mem_filter] at hH
      have hHflag : H.pre_game_data_finalized = false :=
        (of_decide_eq_true hH.2).2.2.1
      have hHG : H = G :=
        List.inj_on_of_nodup_map hnodup hH.1 hG (by rw [hHid, hu2])
      rw [hHG, hpre] at hHflag
      exact Bool.noConfusion hHflag
  have hg'' : g' ∈ executeFlagUpdates db.games (games_update_data dict) := hg'
  rw [executeFlagUpdates_eq_map, List.mem_map] at hg''
  obtain ⟨g0, hg0, hmap⟩ := hg''
  have hg0id : g0.game_id = G.game_id := by
    rw [← hid, ← hmap, applyFlagAll_game_id]
  have hg0G : g0 = G := List.inj_on_of_nodup_map hnodup hg0 hG hg0id
  rw [← hmap, hg0G, applyFlagAll_untouched _ _ huntouched]
  exact hpre

/-- Witness for C5 at a concrete database and prior-states mapping. -/
theorem pre_game_flag_one_provenance_witness :
    (wG1Post ∈ (update_pre_game_data wDB1 [("g1", PriorStates.mk false false)]).games ∧
     wG1Post.pre_game_data_finalized = true) ∧
    ((∃ g ∈ wDB1.games, g.game_id = wG1Post.game_id ∧
        g.pre_game_data_finalized = true) ∨
     (∃ ps, (wG1Post.game_id, ps) ∈ [("g1", PriorStates.mk false false)] ∧
        ps.missing_home = false ∧ ps.missing_away = false)) :=
  ⟨⟨by decide, by decide⟩,
   pre_game_flag_one_provenance wDB1 [("g1", PriorStates.mk false false)] wG1Post
     (by decide) (by decide)⟩

/-- Witness for C6 at a concrete database and prior-states mapping. -/
theorem pre_game_flag_monotone_in_run_witness :
    (wDB4.games.map Game.game_id).Nodup ∧ wG4.pre_game_data_finalized = true :=
  ⟨by decide,
   pre_game_flag_monotone_in_run wDB4 "2023-2024" [("g1", PriorStates.mk true false)]
     (by decide)
     (by intro gid ps h
         rw [List.mem_singleton] at h
         injection h with h1 h2
         subst h1
         decide)
     wG4 (by decide) (by decide) wG4 (by decide) (by decide)⟩

/-- A committed transaction state is untouched by the UPDATEs executed inside
the still-open transaction. -/
theorem txn_foldl_committed (upds : List (Nat × String)) (st : TxnState) :
    (upds.foldl txnUpdate st).committed = st.committed := by
  induction upds generalizing st with
  | nil => rfl
  | cons u us ih => rw [List.foldl_cons, ih]; rfl

/-- The pending table inside the transaction accumulates exactly the
`executemany` updates. -/
theorem txn_foldl_pending (upds : List (Nat × String)) (st : TxnState) :
    (upds.foldl txnUpdate st).pending = executeFlagUpdates st.pending upds := by
  induction upds generalizing st with
  | nil => rfl
  | cons u us ih =>
    rw [List.foldl_cons, ih]
    rfl

/-- C7: the Update Transaction Writer is all-or-nothing: a fault injected
before any of the N batched updates rolls the table back to its original
state (0 updates applied), a fault-free run commits all N updates, and no
fault point can leave a partial count visible. -/
theorem writer_all_or_nothing (games : List Game) (upds : List (Nat × String))
    (k : Nat) (faultAt : Option Nat) (hk : k < upds.length) :
    writerRun games upds (some k) = games ∧
    writerRun games upds none = executeFlagUpdates games upds ∧
    (writerRun games upds faultAt = games ∨
     writerRun games upds faultAt = executeFlagUpdates games upds) := by
  refine ⟨?_, ?_, ?_⟩
  · simp only [writerRun, if_pos hk]
    exact txn_foldl_committed _ _
  · simp only [writerRun]
    exact txn_foldl_pending _ _
  · cases faultAt with
    | none =>
      right
      simp only [writerRun]
      exact txn_foldl_pending _ _
    | some m =>
      by_cases hm : m < upds.length
      · left
        simp only [writerRun, if_pos hm]
        exact txn_foldl_committed _ _
      · right
        simp only [writerRun, if_neg hm]
        exact txn_foldl_pending _ _

/-- Witness for C7 at a concrete table and batch. -/
theorem writer_all_or_nothing_witness :
    1 < ([((1 : Nat), "g1"), ((0 : Nat), "g1")] : List (Nat × String)).length ∧
    writerRun [wG1] [(1, "g1"), (0, "g1")] (some 1) = [wG1] :=
  ⟨by decide,
   (writer_all_or_nothing [wG1] [(1, "g1"), (0, "g1")] 1 (some 0) (by decide)).1⟩

/-- C8 counterexample: the empty string is a supplied predictor name (it is not
`None`), yet `update_database` skips the prediction stage for it, because
`if predictor:` tests Python truthiness. -/
theorem update_database_empty_predictor_counterexample :
    (some "" : Option String) ≠ none ∧
    Stage.prediction ∉ update_database_stages (some "") := by
  constructor
  · intro h
    exact Option.noConfusion h
  · decide

/-- C8 amended: `update_database` always runs schedule sync, game data and
pre-game data, unconditionally and in that order; the prediction stage, if it
runs at all, runs last, and it runs exactly when a non-empty predictor name is
supplied (Python truthiness of the argument). -/
theorem update_database_stage_order (p : Option String) :
    (update_database_stages p).take 3 =
      [Stage.scheduleSync, Stage.gameData, Stage.preGameData] ∧
    ((update_database_stages p).drop 3 = [] ∨
     (update_database_stages p).drop 3 = [Stage.prediction]) ∧
    (Stage.prediction ∈ update_database_stages p ↔ ∃ s, p = some s ∧ s ≠ "") := by
  rcases p with _ | s
  · simp [update_database_stages, pyTruthy]
  · by_cases hs : s = ""
    · subst hs
      simp [update_database_stages, pyTruthy]
    · simp [update_database_stages, pyTruthy, hs]

/-- C9 counterexample: on a database whose only game has season_type
'Post Season' (so the season_type restriction is vacuous), the two modules'
prediction work-set functions return different Python values — a list holding
the string `"g3"` versus a list holding the 1-tuple `("g3",)` — because
`on_load.py` returns the fetched rows unwrapped. -/
theorem modules_not_equivalent_counterexample :
    (∀ g ∈ wDB3.games, g.season = "2023-2024" →
      (g.season_type = "Regular Season" ∨ g.season_type = "Post Season")) ∧
    (DatabaseUpdater.get_games_for_prediction_update wDB3 "2023-2024" "Random").map
        PyCell.pstr ≠
      OnLoad.get_games_for_prediction_update wDB3 "2023-2024" "Random" := by
  constructor
  · decide
  · decide

/-- C9 amended: when every game of the queried season has season_type in
{Regular Season, Post Season}, the two modules' game-data and pre-game-data
work-set functions return identical results, and their prediction work-set
functions select the same games, with `database_updater.py`'s bare-id list
obtained from `on_load.py`'s row list by taking each row's first column. -/
theorem modules_equivalent_up_to_row_unwrapping (db : DB) (season predictor : String)
    (hst : ∀ g ∈ db.games, g.season = season →
      (g.season_type = "Regular Season" ∨ g.season_type = "Post Season")) :
    DatabaseUpdater.get_games_needing_game_state_update db season =
      OnLoad.get_games_needing_game_state_update db season ∧
    DatabaseUpdater.get_games_with_incomplete_pre_game_data db season =
      OnLoad.get_games_with_incomplete_pre_game_data db season ∧
    (DatabaseUpdater.get_games_for_prediction_update db season predictor).map
        PyCell.pstr =
      (OnLoad.get_games_for_prediction_update db season predictor).map rowFirst := by
  refine ⟨?_, ?_, ?_⟩
  · rw [DatabaseUpdater.get_games_needing_game_state_update,
      OnLoad.get_games_needing_game_state_update]
    congr 1
    apply List.filter_congr
    intro x hx
    rw [decide_eq_decide]
    constructor
    · rintro ⟨h1, -, h3⟩
      exact ⟨h1, h3⟩
    · rintro ⟨h1, h3⟩
      exact ⟨h1, hst x hx h1, h3⟩
  · rw [DatabaseUpdater.get_games_with_incomplete_pre_game_data,
      OnLoad.get_games_with_incomplete_pre_game_data]
    have hb1 : (db.games.filter fun g => decide (g.season = season ∧
        DatabaseUpdater.season_type_in g ∧ g.pre_game_data_finalized = false ∧
        (g.status = Status.completed ∨ g.status = Status.inProgress))) =
        (db.games.filter fun g => decide (g.season = season ∧
        g.pre_game_data_finalized = false ∧
        (g.status = Status.completed ∨ g.status = Status.inProgress))) := by
      apply List.filter_congr
      intro x hx
      rw [decide_eq_decide]
      constructor
      · rintro ⟨h1, -, h3, h4⟩
        exact ⟨h1, h3, h4⟩
      · rintro ⟨h1, h3, h4⟩
        exact ⟨h1, hst x hx h1, h3, h4⟩
    have hb2 : (db.games.filter fun g => decide (g.season = season ∧
        DatabaseUpdater.season_type_in g ∧ g.pre_game_data_finalized = false ∧
        g.status = Status.notStarted ∧ ¬ has_unsettled_predecessor db season g)) =
        (db.games.filter fun g => decide (g.season = season ∧
        g.pre_game_data_finalized = false ∧ g.status = Status.notStarted ∧
        ¬ has_unsettled_predecessor db season g)) := by
      apply List.filter_congr
      intro x hx
      rw [decide_eq_decide]
      constructor
      · rintro ⟨h1, -, h3, h4, h5⟩
        exact ⟨h1, h3, h4, h5⟩
      · rintro ⟨h1, h3, h4, h5⟩
        exact ⟨h1, hst x hx h1, h3, h4, h5⟩
    rw [hb1, hb2]
  · rw [DatabaseUpdater.get_games_for_prediction_update,
      OnLoad.get_games_for_prediction_update, List.map_map, List.map_map]
    have hb : (db.games.filter fun g => decide (g.season = season ∧
        DatabaseUpdater.season_type_in g ∧ g.pre_game_data_finalized = true ∧
        ¬ has_prediction_row db predictor g)) =
        (db.games.filter fun g => decide (g.season = season ∧
        g.pre_game_data_finalized = true ∧
        ¬ has_prediction_row db predictor g)) := by
      apply List.filter_congr
      intro x hx
      rw [decide_eq_decide]
      constructor
      · rintro ⟨h1, -, h3, h4⟩
        exact ⟨h1, h3, h4⟩
      · rintro ⟨h1, h3, h4⟩
        exact ⟨h1, hst x hx h1, h3, h4⟩
    rw [hb]
    rfl

/-- Witness for the amended C9 at a concrete database. -/
theorem modules_equivalent_up_to_row_unwrapping_witness :
    (∀ g ∈ wDB2.games, g.season = "2023-2024" →
      (g.season_type = "Regular Season" ∨ g.season_type = "Post Season")) ∧
    DatabaseUpdater.get_games_with_incomplete_pre_game_data wDB2 "2023-2024" =
      OnLoad.get_games_with_incomplete_pre_game_data wDB2 "2023-2024" :=
  ⟨by decide,
   (modules_equivalent_up_to_row_unwrapping wDB2 "2023-2024" "Random"
      (by decide)).2.1⟩
